import Mathlib

set_option autoImplicit false

/-!
Shallow embedding of the csr spice-trading core: the ranked spice cube and
the dual-representation spice amount from `src/spice/mod.rs`, the error
enumeration from `src/errors/mod.rs`, the caravan inventory from
`src/player/mod.rs`, and the points card from `src/cards/mod.rs`.

Machine `u8` values are embedded as `Nat`.  Arithmetic that can exceed the
8-bit width (`SpiceCube::upgrade`'s `current_level + steps` and
`SpiceAmount::add`'s component sums) takes an explicit `% 256`, the
wrap-around semantics of a release-profile Rust build (a debug build aborts
on the same inputs, so on overflowing inputs neither profile returns the
mathematically exact value).  `u8::saturating_sub` is exactly truncated
subtraction on `Nat`.
-/

/-- The positional `[u8; 4]` array carried inside `SpiceAmount` (index 0..3
is rank 1..4: turmeric, saffron, cardamon, cinnamon). -/
structure Vec4 where
  v0 : Nat
  v1 : Nat
  v2 : Nat
  v3 : Nat
deriving DecidableEq, Repr

/-- `SpiceAmount` (`src/spice/mod.rs:86`): four named `u8` counts plus a
duplicated positional array. -/
structure SpiceAmount where
  turmeric : Nat
  saffron : Nat
  cardamon : Nat
  cinnamon : Nat
  vector : Vec4
deriving DecidableEq, Repr

/-- The `spice_amount` constructor (`src/macros.rs:22`): the positional
array repeats the four named fields. -/
def spice_amount (turmeric saffron cardamon cinnamon : Nat) : SpiceAmount :=
  { turmeric := turmeric, saffron := saffron, cardamon := cardamon, cinnamon := cinnamon,
    vector := ⟨turmeric, saffron, cardamon, cinnamon⟩ }

/-- `GameErrors` (`src/errors/mod.rs`).  The declaration at
`src/errors/mod.rs:17` gives `CannotSubtractSpiceAmount` a single payload,
but its only construction site (`src/spice/mod.rs:175`) and the doc-test at
`src/spice/mod.rs:161` pass two payloads (the original amount and the
missing amount); the embedding follows the construction site. -/
inductive GameErrors where
  | CannotUpgradeToSelf
  | CannotUpgradePastCinnamon
  | MaxSpiceCapacityReached
  | CannotSubtractSpiceAmount (original missing : SpiceAmount)
  | InternalLogicError
deriving DecidableEq, Repr

/-- `SpiceCube` (`src/spice/mod.rs:11`): one ranked spice token. -/
inductive SpiceCube where
  | Turmeric
  | Saffron
  | Cardamon
  | Cinnamon
deriving DecidableEq, Repr

/-- The enum discriminant read by `*self as u8` (`src/spice/mod.rs:70`). -/
def SpiceCube.level : SpiceCube → Nat
  | .Turmeric => 1
  | .Saffron => 2
  | .Cardamon => 3
  | .Cinnamon => 4

/-- `SpiceCube::upgrade` (`src/spice/mod.rs:65`).  The `u8` sum
`current_level + steps` is embedded with `% 256`. -/
def SpiceCube.upgrade (self : SpiceCube) (steps : Nat) : Except GameErrors SpiceCube :=
  if steps = 0 then Except.error GameErrors.CannotUpgradeToSelf
  else
    let current_level := self.level
    let target_level := (current_level + steps) % 256
    match target_level with
    | 2 => Except.ok SpiceCube.Saffron
    | 3 => Except.ok SpiceCube.Cardamon
    | 4 => Except.ok SpiceCube.Cinnamon
    | _ => Except.error GameErrors.CannotUpgradePastCinnamon

/-- `SpiceAmount::contains` (`src/spice/mod.rs:112`). -/
def SpiceAmount.contains (self other : SpiceAmount) : Bool :=
  decide (self.turmeric ≥ other.turmeric)
    && decide (self.saffron ≥ other.saffron)
    && decide (self.cardamon ≥ other.cardamon)
    && decide (self.cinnamon ≥ other.cinnamon)

/-- `SpiceAmount::add` (`src/spice/mod.rs:131`), `u8` sums taken `% 256`. -/
def SpiceAmount.add (self other : SpiceAmount) : SpiceAmount :=
  spice_amount
    ((self.turmeric + other.turmeric) % 256)
    ((self.saffron + other.saffron) % 256)
    ((self.cardamon + other.cardamon) % 256)
    ((self.cinnamon + other.cinnamon) % 256)

/-- `SpiceAmount::subtract` (`src/spice/mod.rs:167`).  `Nat` subtraction is
`u8::saturating_sub`; the success branch cannot underflow because of the
`contains` guard. -/
def SpiceAmount.subtract (self other : SpiceAmount) : Except GameErrors SpiceAmount :=
  if !(self.contains other) then
    Except.error (GameErrors.CannotSubtractSpiceAmount self
      (spice_amount
        (other.turmeric - self.turmeric)
        (other.saffron - self.saffron)
        (other.cardamon - self.cardamon)
        (other.cinnamon - self.cinnamon)))
  else
    Except.ok (spice_amount
      (self.turmeric - other.turmeric)
      (self.saffron - other.saffron)
      (self.cardamon - other.cardamon)
      (self.cinnamon - other.cinnamon))

/-- `SpiceAmount::default()` from `#[derive(Default)]`: all counts zero. -/
def SpiceAmount.default : SpiceAmount := spice_amount 0 0 0 0

/-- `SpiceAmountBuilder` (`src/spice/mod.rs:198`). -/
structure SpiceAmountBuilder where
  spice_amount : SpiceAmount

/-- `SpiceAmountBuilder::new` (`src/spice/mod.rs:203`). -/
def SpiceAmountBuilder.new : SpiceAmountBuilder := ⟨SpiceAmount.default⟩

/-- `SpiceAmountBuilder::turmeric` (`src/spice/mod.rs:209`): sets the named
field and slot 0 of the positional array. -/
def SpiceAmountBuilder.turmeric (self : SpiceAmountBuilder) (turmeric : Nat) :
    SpiceAmountBuilder :=
  let sa := self.spice_amount
  ⟨{ sa with turmeric := turmeric, vector := { sa.vector with v0 := turmeric } }⟩

/-- `SpiceAmountBuilder::saffron` (`src/spice/mod.rs:215`). -/
def SpiceAmountBuilder.saffron (self : SpiceAmountBuilder) (saffron : Nat) :
    SpiceAmountBuilder :=
  let sa := self.spice_amount
  ⟨{ sa with saffron := saffron, vector := { sa.vector with v1 := saffron } }⟩

/-- `SpiceAmountBuilder::cardamon` (`src/spice/mod.rs:221`). -/
def SpiceAmountBuilder.cardamon (self : SpiceAmountBuilder) (cardamon : Nat) :
    SpiceAmountBuilder :=
  let sa := self.spice_amount
  ⟨{ sa with cardamon := cardamon, vector := { sa.vector with v2 := cardamon } }⟩

/-- `SpiceAmountBuilder::cinnamon` (`src/spice/mod.rs:227`). -/
def SpiceAmountBuilder.cinnamon (self : SpiceAmountBuilder) (cinnamon : Nat) :
    SpiceAmountBuilder :=
  let sa := self.spice_amount
  ⟨{ sa with cinnamon := cinnamon, vector := { sa.vector with v3 := cinnamon } }⟩

/-- `SpiceAmountBuilder::build` (`src/spice/mod.rs:233`). -/
def SpiceAmountBuilder.build (self : SpiceAmountBuilder) : SpiceAmount :=
  self.spice_amount

/-- The `From<[u8; 4]> for SpiceAmount` conversion (`src/spice/mod.rs:250`). -/
def SpiceAmount.from_spice_array (spice_array : Vec4) : SpiceAmount :=
  { turmeric := spice_array.v0, saffron := spice_array.v1,
    cardamon := spice_array.v2, cinnamon := spice_array.v3,
    vector := spice_array }

/-- The `From<SpiceAmount> for [u8; 4]` conversion (`src/spice/mod.rs:273`):
reads only the positional array. -/
def SpiceAmount.into_spice_array (self : SpiceAmount) : Vec4 :=
  self.vector

/-- `MAX_CARAVAN_SIZE` (`src/player/mod.rs:6`). -/
def MAX_CARAVAN_SIZE : Nat := 10

/-- `Caravan` (`src/player/mod.rs:12`): ten slots, each empty or holding a
cube.  The slots are embedded as a list; every constructor below produces
length `MAX_CARAVAN_SIZE`. -/
structure Caravan where
  spaces : List (Option SpiceCube)
deriving DecidableEq, Repr

/-- `Caravan::get_spaces` (`src/player/mod.rs:18`). -/
def Caravan.get_spaces (self : Caravan) : List (Option SpiceCube) :=
  self.spaces

/-- The inner loop of `Caravan::from_spice_amount` (`src/player/mod.rs:75`):
write `count` copies of `spice` starting at slot `idx`, returning the
updated slots and the next free index. -/
def fillRun (spaces : List (Option SpiceCube)) (idx : Nat) (count : Nat) (spice : SpiceCube) :
    List (Option SpiceCube) × Nat :=
  match count with
  | 0 => (spaces, idx)
  | Nat.succ n => fillRun (spaces.set idx (some spice)) (idx + 1) n spice

/-- `Caravan::from_spice_amount` (`src/player/mod.rs:53`): reads the
positional array (via `Into<[u8; 4]>`), checks the total against
`MAX_CARAVAN_SIZE`, then fills slots rank by rank in the order
turmeric, saffron, cardamon, cinnamon. -/
def Caravan.from_spice_amount (spice_amount : SpiceAmount) : Except GameErrors Caravan :=
  let spice_vector : Vec4 := spice_amount.into_spice_array
  let turmeric := spice_vector.v0
  let saffron := spice_vector.v1
  let cardamon := spice_vector.v2
  let cinnamon := spice_vector.v3
  let total := turmeric + saffron + cardamon + cinnamon
  if total > MAX_CARAVAN_SIZE then
    Except.error GameErrors.MaxSpiceCapacityReached
  else
    let spaces0 : List (Option SpiceCube) := List.replicate MAX_CARAVAN_SIZE none
    let r1 := fillRun spaces0 0 turmeric SpiceCube.Turmeric
    let r2 := fillRun r1.1 r1.2 saffron SpiceCube.Saffron
    let r3 := fillRun r2.1 r2.2 cardamon SpiceCube.Cardamon
    let r4 := fillRun r3.1 r3.2 cinnamon SpiceCube.Cinnamon
    Except.ok ⟨r4.1⟩

/-- `Caravan::current_capacity` (`src/player/mod.rs:85`): the number of
occupied slots (`iter().flatten().count()`). -/
def Caravan.current_capacity (self : Caravan) : Nat :=
  (self.spaces.filterMap id).length

/-- `Caravan::get_spice_amount` (`src/player/mod.rs:99`): per-rank occupied
slot counts fed through the builder. -/
def Caravan.get_spice_amount (self : Caravan) : SpiceAmount :=
  ((((SpiceAmountBuilder.new.turmeric
        ((self.spaces.filter (fun x => decide (x = some SpiceCube.Turmeric))).length)).saffron
        ((self.spaces.filter (fun x => decide (x = some SpiceCube.Saffron))).length)).cardamon
        ((self.spaces.filter (fun x => decide (x = some SpiceCube.Cardamon))).length)).cinnamon
        ((self.spaces.filter (fun x => decide (x = some SpiceCube.Cinnamon))).length)).build

/-- `PointsCard` (`src/cards/mod.rs:15`). -/
structure PointsCard where
  points : Nat
  cost : SpiceAmount
deriving DecidableEq, Repr

/-- `PointsCard::purchase` (`src/cards/mod.rs:21`): delegate to
`subtract`, propagating its error via the `?` operator. -/
def PointsCard.purchase (self : PointsCard) (spice_amount : SpiceAmount) :
    Except GameErrors (Nat × SpiceAmount) :=
  match spice_amount.subtract self.cost with
  | Except.error e => Except.error e
  | Except.ok subtracted_amount => Except.ok (self.points, subtracted_amount)

/-- Representation consistency of a `SpiceAmount`: the positional array
agrees with the four named fields (the invariant of spec section 3; a value
of the spec's SpiceVector type is exactly a `SpiceAmount` satisfying it). -/
def SpiceAmount.Wf (self : SpiceAmount) : Prop :=
  self.vector = ⟨self.turmeric, self.saffron, self.cardamon, self.cinnamon⟩

instance (sa : SpiceAmount) : Decidable sa.Wf := by
  unfold SpiceAmount.Wf; infer_instance

/-- The component sum of a `SpiceAmount`, read off the named fields. -/
def SpiceAmount.total (self : SpiceAmount) : Nat :=
  self.turmeric + self.saffron + self.cardamon + self.cinnamon

/-- The slot list the spec's fill order describes: all rank-1 cubes, then
rank 2, rank 3, rank 4, then empty trailing slots up to ten. -/
def caravanList (t s c ci : Nat) : List (Option SpiceCube) :=
  List.replicate t (some SpiceCube.Turmeric) ++ List.replicate s (some SpiceCube.Saffron) ++
    List.replicate c (some SpiceCube.Cardamon) ++ List.replicate ci (some SpiceCube.Cinnamon) ++
    List.replicate (MAX_CARAVAN_SIZE - (t + s + c + ci)) none

/-! ### Helper lemmas -/

theorem set_append_length {α : Type} (pre : List α) (x v : α) (suf : List α) :
    (pre ++ x :: suf).set pre.length v = pre ++ v :: suf := by
  induction pre with
  | nil => rfl
  | cons p ps ih => simp [List.set_cons_succ, ih]

theorem fillRun_eq (sp : SpiceCube) :
    ∀ (n : Nat) (pre suf : List (Option SpiceCube)), n ≤ suf.length →
      fillRun (pre ++ suf) pre.length n sp =
        (pre ++ List.replicate n (some sp) ++ suf.drop n, pre.length + n) := by
  intro n
  induction n with
  | zero => intro pre suf _; simp [fillRun]
  | succ n ih =>
    intro pre suf h
    cases suf with
    | nil => simp at h
    | cons x suf' =>
      have h' : n ≤ suf'.length := Nat.le_of_succ_le_succ h
      have e0 : fillRun (pre ++ x :: suf') pre.length (n + 1) sp =
          fillRun ((pre ++ x :: suf').set pre.length (some sp)) (pre.length + 1) n sp := rfl
      have e1 : (pre ++ x :: suf').set pre.length (some sp) = (pre ++ [some sp]) ++ suf' := by
        rw [set_append_length]; simp
      have e2 : pre.length + 1 = (pre ++ [some sp]).length := by simp
      rw [e0, e1, e2, ih (pre ++ [some sp]) suf' h']
      simp [List.replicate_succ, List.append_assoc]
      omega

theorem builder_chain (t s c ci : Nat) :
    ((((SpiceAmountBuilder.new.turmeric t).saffron s).cardamon c).cinnamon ci).build =
      spice_amount t s c ci := rfl

theorem filter_decide_replicate (a b : Option SpiceCube) (n : Nat) :
    ((List.replicate n a).filter (fun x => decide (x = b))).length = if a = b then n else 0 := by
  rw [List.filter_replicate]
  by_cases hab : a = b <;> simp [hab]

theorem filterMap_id_replicate_some (k : Nat) (x : SpiceCube) :
    (List.replicate k (some x)).filterMap id = List.replicate k x := by
  induction k with
  | zero => rfl
  | succ k ih => simp [List.replicate_succ, ih]

theorem filterMap_id_replicate_none (k : Nat) :
    (List.replicate k (none : Option SpiceCube)).filterMap id = [] := by
  induction k with
  | zero => rfl
  | succ k ih => simp [List.replicate_succ, ih]

theorem fill_step1 (t : Nat) (h : t ≤ 10) :
    fillRun (List.replicate MAX_CARAVAN_SIZE none) 0 t SpiceCube.Turmeric =
      (List.replicate t (some SpiceCube.Turmeric) ++ List.replicate (10 - t) none, t) := by
  have e := fillRun_eq SpiceCube.Turmeric t ([] : List (Option SpiceCube))
            (List.replicate 10 none) (by simpa using h)
  simpa only [MAX_CARAVAN_SIZE, List.nil_append, List.length_nil, List.drop_replicate,
    Nat.zero_add, List.append_assoc] using e

theorem fill_step2 (t s : Nat) (h : t + s ≤ 10) :
    fillRun (List.replicate t (some SpiceCube.Turmeric) ++ List.replicate (10 - t) none)
        t s SpiceCube.Saffron =
      (List.replicate t (some SpiceCube.Turmeric) ++
        (List.replicate s (some SpiceCube.Saffron) ++ List.replicate (10 - t - s) none),
       t + s) := by
  have e := fillRun_eq SpiceCube.Saffron s (List.replicate t (some SpiceCube.Turmeric))
            (List.replicate (10 - t) none) (by simp only [List.length_replicate]; omega)
  simpa only [List.length_replicate, List.drop_replicate, List.append_assoc, Nat.sub_sub] using e

theorem fill_step3 (t s c : Nat) (h : t + s + c ≤ 10) :
    fillRun (List.replicate t (some SpiceCube.Turmeric) ++
        (List.replicate s (some SpiceCube.Saffron) ++ List.replicate (10 - t - s) none))
        (t + s) c SpiceCube.Cardamon =
      (List.replicate t (some SpiceCube.Turmeric) ++
        (List.replicate s (some SpiceCube.Saffron) ++
          (List.replicate c (some SpiceCube.Cardamon) ++ List.replicate (10 - t - s - c) none)),
       t + s + c) := by
  have e := fillRun_eq SpiceCube.Cardamon c
            (List.replicate t (some SpiceCube.Turmeric) ++ List.replicate s (some SpiceCube.Saffron))
            (List.replicate (10 - t - s) none)
            (by simp only [List.length_replicate]; omega)
  simpa only [List.length_append, List.length_replicate, List.drop_replicate,
    List.append_assoc, Nat.sub_sub] using e

theorem fill_step4 (t s c ci : Nat) (h : t + s + c + ci ≤ 10) :
    fillRun (List.replicate t (some SpiceCube.Turmeric) ++
        (List.replicate s (some SpiceCube.Saffron) ++
          (List.replicate c (some SpiceCube.Cardamon) ++ List.replicate (10 - t - s - c) none)))
        (t + s + c) ci SpiceCube.Cinnamon =
      (caravanList t s c ci, t + s + c + ci) := by
  have e := fillRun_eq SpiceCube.Cinnamon ci
            (List.replicate t (some SpiceCube.Turmeric) ++
              (List.replicate s (some SpiceCube.Saffron) ++ List.replicate c (some SpiceCube.Cardamon)))
            (List.replicate (10 - t - s - c) none)
            (by simp only [List.length_replicate]; omega)
  simpa only [caravanList, MAX_CARAVAN_SIZE, List.length_append, List.length_replicate,
    List.drop_replicate, List.append_assoc, Nat.sub_sub, ← Nat.add_assoc] using e

theorem from_spice_amount_ok (sa : SpiceAmount) (t s c ci : Nat)
    (hv : sa.vector = ⟨t, s, c, ci⟩) (h : t + s + c + ci ≤ 10) :
    Caravan.from_spice_amount sa = Except.ok ⟨caravanList t s c ci⟩ := by
  unfold Caravan.from_spice_amount SpiceAmount.into_spice_array
  rw [hv]
  rw [if_neg (by simp only [MAX_CARAVAN_SIZE]; omega)]
  dsimp only
  simp only [fill_step1 t (by omega), fill_step2 t s (by omega), fill_step3 t s c (by omega),
    fill_step4 t s c ci h]

theorem from_spice_amount_err (sa : SpiceAmount)
    (h : 10 < sa.vector.v0 + sa.vector.v1 + sa.vector.v2 + sa.vector.v3) :
    Caravan.from_spice_amount sa = Except.error GameErrors.MaxSpiceCapacityReached := by
  unfold Caravan.from_spice_amount SpiceAmount.into_spice_array
  dsimp only
  rw [if_pos (by simp only [MAX_CARAVAN_SIZE]; omega)]

theorem get_spice_amount_caravanList (t s c ci : Nat) :
    Caravan.get_spice_amount ⟨caravanList t s c ci⟩ = spice_amount t s c ci := by
  have ht : ((caravanList t s c ci).filter
      (fun x => decide (x = some SpiceCube.Turmeric))).length = t := by
    simp only [caravanList, List.filter_append, List.length_append, filter_decide_replicate]
    simp
  have hs : ((caravanList t s c ci).filter
      (fun x => decide (x = some SpiceCube.Saffron))).length = s := by
    simp only [caravanList, List.filter_append, List.length_append, filter_decide_replicate]
    simp
  have hc : ((caravanList t s c ci).filter
      (fun x => decide (x = some SpiceCube.Cardamon))).length = c := by
    simp only [caravanList, List.filter_append, List.length_append, filter_decide_replicate]
    simp
  have hci : ((caravanList t s c ci).filter
      (fun x => decide (x = some SpiceCube.Cinnamon))).length = ci := by
    simp only [caravanList, List.filter_append, List.length_append, filter_decide_replicate]
    simp
  unfold Caravan.get_spice_amount
  dsimp only
  rw [ht, hs, hc, hci, builder_chain]

theorem current_capacity_caravanList (t s c ci : Nat) :
    Caravan.current_capacity ⟨caravanList t s c ci⟩ = t + s + c + ci := by
  simp only [Caravan.current_capacity, caravanList, List.filterMap_append,
    filterMap_id_replicate_some, filterMap_id_replicate_none, List.length_append,
    List.length_replicate, List.length_nil]
  omega

theorem wf_eq (sa : SpiceAmount) (h : sa.Wf) :
    sa = spice_amount sa.turmeric sa.saffron sa.cardamon sa.cinnamon := by
  unfold SpiceAmount.Wf at h
  cases sa
  dsimp only at h ⊢
  subst h
  rfl

/-! ### Claims -/

/-- C1: for every representation-consistent spice vector whose component sum
is at most 10, building a caravan with `Caravan.from_spice_amount` succeeds
and `Caravan.get_spice_amount` of the result returns exactly the input. -/
theorem claim_C1_round_trip (v : SpiceAmount) (hw : v.Wf) (h : v.total ≤ 10) :
    (Caravan.from_spice_amount v).map Caravan.get_spice_amount = Except.ok v := by
  rw [from_spice_amount_ok v v.turmeric v.saffron v.cardamon v.cinnamon hw h]
  dsimp only [Except.map]
  rw [get_spice_amount_caravanList]
  exact congrArg Except.ok (wf_eq v hw).symm

/-- Witness for C1 at the vector (3, 1, 2, 4). -/
theorem claim_C1_round_trip_witness :
    (Caravan.from_spice_amount (spice_amount 3 1 2 4)).map Caravan.get_spice_amount =
      Except.ok (spice_amount 3 1 2 4) :=
  claim_C1_round_trip (spice_amount 3 1 2 4) (by decide) (by decide)

/-- C2: for every representation-consistent spice vector,
`Caravan.from_spice_amount` fails with `MaxSpiceCapacityReached` exactly when
the component sum exceeds 10, and on a sum of at most 10 it succeeds with
`current_capacity` equal to that sum. -/
theorem claim_C2_capacity_boundary (v : SpiceAmount) (hw : v.Wf) :
    (Caravan.from_spice_amount v = Except.error GameErrors.MaxSpiceCapacityReached ↔
      10 < v.total)
    ∧ (v.total ≤ 10 →
      (Caravan.from_spice_amount v).map Caravan.current_capacity = Except.ok v.total) := by
  constructor
  · constructor
    · intro he
      by_contra hle
      push_neg at hle
      rw [from_spice_amount_ok v v.turmeric v.saffron v.cardamon v.cinnamon hw hle] at he
      exact Except.noConfusion he
    · intro hgt
      apply from_spice_amount_err
      rw [show v.vector = ⟨v.turmeric, v.saffron, v.cardamon, v.cinnamon⟩ from hw]
      dsimp only
      exact hgt
  · intro hle
    rw [from_spice_amount_ok v v.turmeric v.saffron v.cardamon v.cinnamon hw hle]
    dsimp only [Except.map]
    rw [current_capacity_caravanList]
    rfl

/-- Witness for C2 at the vector (3, 1, 2, 4). -/
theorem claim_C2_capacity_boundary_witness :
    (Caravan.from_spice_amount (spice_amount 3 1 2 4) =
        Except.error GameErrors.MaxSpiceCapacityReached ↔ 10 < (spice_amount 3 1 2 4).total)
    ∧ ((spice_amount 3 1 2 4).total ≤ 10 →
      (Caravan.from_spice_amount (spice_amount 3 1 2 4)).map Caravan.current_capacity =
        Except.ok (spice_amount 3 1 2 4).total) :=
  claim_C2_capacity_boundary (spice_amount 3 1 2 4) (by decide)

/-- C3: whenever `contains` fails, `subtract` fails with
`CannotSubtractSpiceAmount` carrying the original amount and a missing
amount whose every component is the saturating deficit max(0, other - self). -/
theorem claim_C3_insufficient_spice (a b : SpiceAmount) (h : a.contains b = false) :
    ∃ missing : SpiceAmount,
      a.subtract b = Except.error (GameErrors.CannotSubtractSpiceAmount a missing) ∧
      (missing.turmeric : Int) = max 0 ((b.turmeric : Int) - (a.turmeric : Int)) ∧
      (missing.saffron : Int) = max 0 ((b.saffron : Int) - (a.saffron : Int)) ∧
      (missing.cardamon : Int) = max 0 ((b.cardamon : Int) - (a.cardamon : Int)) ∧
      (missing.cinnamon : Int) = max 0 ((b.cinnamon : Int) - (a.cinnamon : Int)) := by
  refine ⟨spice_amount (b.turmeric - a.turmeric) (b.saffron - a.saffron)
    (b.cardamon - a.cardamon) (b.cinnamon - a.cinnamon), ?_, ?_, ?_, ?_, ?_⟩
  · unfold SpiceAmount.subtract
    simp [h]
  · simp only [spice_amount]; omega
  · simp only [spice_amount]; omega
  · simp only [spice_amount]; omega
  · simp only [spice_amount]; omega

/-- Witness for C3 at the doc-test pair ((2,1,4,3), (3,2,4,0)). -/
theorem claim_C3_insufficient_spice_witness :
    ∃ missing : SpiceAmount,
      (spice_amount 2 1 4 3).subtract (spice_amount 3 2 4 0) =
        Except.error (GameErrors.CannotSubtractSpiceAmount (spice_amount 2 1 4 3) missing) ∧
      (missing.turmeric : Int) =
        max 0 (((spice_amount 3 2 4 0).turmeric : Int) - ((spice_amount 2 1 4 3).turmeric : Int)) ∧
      (missing.saffron : Int) =
        max 0 (((spice_amount 3 2 4 0).saffron : Int) - ((spice_amount 2 1 4 3).saffron : Int)) ∧
      (missing.cardamon : Int) =
        max 0 (((spice_amount 3 2 4 0).cardamon : Int) - ((spice_amount 2 1 4 3).cardamon : Int)) ∧
      (missing.cinnamon : Int) =
        max 0 (((spice_amount 3 2 4 0).cinnamon : Int) - ((spice_amount 2 1 4 3).cinnamon : Int)) :=
  claim_C3_insufficient_spice (spice_amount 2 1 4 3) (spice_amount 3 2 4 0) (by decide)

/-- C4: `subtract` succeeds exactly when `contains` holds, and `contains`
holds exactly when all four named components dominate. -/
theorem claim_C4_duality (a b : SpiceAmount) :
    ((a.subtract b).isOk = a.contains b)
    ∧ (a.contains b = true ↔
      b.turmeric ≤ a.turmeric ∧ b.saffron ≤ a.saffron ∧
        b.cardamon ≤ a.cardamon ∧ b.cinnamon ≤ a.cinnamon) := by
  constructor
  · unfold SpiceAmount.subtract
    cases hc : a.contains b <;> simp [hc, Except.isOk, Except.toBool]
  · simp [SpiceAmount.contains, ge_iff_le, and_assoc]

/-- C5: a successful subtraction inverts addition: if `a.subtract b = ok c`
then `c.add b` reproduces each of the four components of `a` (the
no-overflow grant is the `u8` range bound on `a`'s components). -/
theorem claim_C5_subtract_add (a b c : SpiceAmount)
    (ht : a.turmeric < 256) (hs : a.saffron < 256)
    (hc : a.cardamon < 256) (hci : a.cinnamon < 256)
    (h : a.subtract b = Except.ok c) :
    (c.add b).turmeric = a.turmeric ∧ (c.add b).saffron = a.saffron ∧
      (c.add b).cardamon = a.cardamon ∧ (c.add b).cinnamon = a.cinnamon := by
  unfold SpiceAmount.subtract at h
  by_cases hcon : a.contains b
  · simp only [hcon, Bool.not_true, Bool.false_eq_true, if_false, Except.ok.injEq] at h
    have hle := (claim_C4_duality a b).2.mp hcon
    subst h
    simp only [SpiceAmount.add, spice_amount]
    refine ⟨?_, ?_, ?_, ?_⟩ <;> omega
  · simp [hcon] at h

/-- Witness for C5 at the doc-test triple ((2,1,4,3), (1,1,4,1), (1,0,0,2)). -/
theorem claim_C5_subtract_add_witness :
    ((spice_amount 1 0 0 2).add (spice_amount 1 1 4 1)).turmeric =
        (spice_amount 2 1 4 3).turmeric ∧
      ((spice_amount 1 0 0 2).add (spice_amount 1 1 4 1)).saffron =
        (spice_amount 2 1 4 3).saffron ∧
      ((spice_amount 1 0 0 2).add (spice_amount 1 1 4 1)).cardamon =
        (spice_amount 2 1 4 3).cardamon ∧
      ((spice_amount 1 0 0 2).add (spice_amount 1 1 4 1)).cinnamon =
        (spice_amount 2 1 4 3).cinnamon :=
  claim_C5_subtract_add (spice_amount 2 1 4 3) (spice_amount 1 1 4 1) (spice_amount 1 0 0 2)
    (by decide) (by decide) (by decide) (by decide) rfl

/-- C6: evidence at the failing input: upgrading Cardamon (level 3) by 255
steps has mathematical target 258, above Cinnamon, yet the `u8` sum wraps to
2 and the code returns Ok(Saffron) instead of CannotUpgradePastCinnamon. -/
theorem claim_C6_upgrade_overflow :
    SpiceCube.upgrade SpiceCube.Cardamon 255 = Except.ok SpiceCube.Saffron := rfl

/-- C7: `purchase` delegates to `subtract` on the card's cost, pairing the
card's points with the remainder on success and propagating the error
unchanged, with the two concrete scenarios of the spec. -/
theorem claim_C7_purchase :
    (∀ (card : PointsCard) (v r : SpiceAmount), v.subtract card.cost = Except.ok r →
      card.purchase v = Except.ok (card.points, r))
    ∧ (∀ (card : PointsCard) (v : SpiceAmount) (e : GameErrors),
        v.subtract card.cost = Except.error e → card.purchase v = Except.error e)
    ∧ PointsCard.purchase ⟨11, spice_amount 3 0 0 2⟩ (spice_amount 4 2 1 2) =
        Except.ok (11, spice_amount 1 2 1 0)
    ∧ ∀ p : Nat, PointsCard.purchase ⟨p, spice_amount 3 2 4 0⟩ (spice_amount 2 1 4 3) =
        Except.error (GameErrors.CannotSubtractSpiceAmount (spice_amount 2 1 4 3)
          (spice_amount 1 1 0 0)) := by
  refine ⟨?_, ?_, rfl, fun p => rfl⟩
  · intro card v r h
    unfold PointsCard.purchase
    rw [h]
  · intro card v e h
    unfold PointsCard.purchase
    rw [h]

/-- Witness for C7 at the two concrete purchase scenarios. -/
theorem claim_C7_purchase_witness :
    PointsCard.purchase ⟨11, spice_amount 3 0 0 2⟩ (spice_amount 4 2 1 2) =
        Except.ok ((⟨11, spice_amount 3 0 0 2⟩ : PointsCard).points, spice_amount 1 2 1 0)
    ∧ PointsCard.purchase ⟨7, spice_amount 3 2 4 0⟩ (spice_amount 2 1 4 3) =
        Except.error (GameErrors.CannotSubtractSpiceAmount (spice_amount 2 1 4 3)
          (spice_amount 1 1 0 0)) :=
  ⟨claim_C7_purchase.1 ⟨11, spice_amount 3 0 0 2⟩ (spice_amount 4 2 1 2)
      (spice_amount 1 2 1 0) rfl,
    claim_C7_purchase.2.1 ⟨7, spice_amount 3 2 4 0⟩ (spice_amount 2 1 4 3)
      (GameErrors.CannotSubtractSpiceAmount (spice_amount 2 1 4 3) (spice_amount 1 1 0 0)) rfl⟩

/-- C8: the caravan built from a representation-consistent vector of sum at
most 10 is exactly the ascending-rank fill with trailing empty slots, and on
(3,1,0,0) it is three Turmeric cubes, one Saffron cube, then six empty
slots. -/
theorem claim_C8_fill_order :
    (∀ v : SpiceAmount, v.Wf → v.total ≤ 10 →
      Caravan.from_spice_amount v =
        Except.ok ⟨caravanList v.turmeric v.saffron v.cardamon v.cinnamon⟩)
    ∧ Caravan.from_spice_amount (spice_amount 3 1 0 0) =
      Except.ok ⟨[some SpiceCube.Turmeric, some SpiceCube.Turmeric, some SpiceCube.Turmeric,
        some SpiceCube.Saffron, none, none, none, none, none, none]⟩ := by
  refine ⟨?_, rfl⟩
  intro v hw h
  exact from_spice_amount_ok v v.turmeric v.saffron v.cardamon v.cinnamon hw h

/-- Witness for C8 at the vector (3, 1, 0, 0). -/
theorem claim_C8_fill_order_witness :
    Caravan.from_spice_amount (spice_amount 3 1 0 0) =
      Except.ok ⟨caravanList (spice_amount 3 1 0 0).turmeric (spice_amount 3 1 0 0).saffron
        (spice_amount 3 1 0 0).cardamon (spice_amount 3 1 0 0).cinnamon⟩ :=
  claim_C8_fill_order.1 (spice_amount 3 1 0 0) (by decide) (by decide)

/-- C9: every spice amount produced by a core operation (the constructor,
the builder's setters and build starting from a consistent state, conversion
from an array, add, subtract's success value and deficit, and the caravan's
aggregate) keeps the positional array equal to the four named fields. -/
theorem claim_C9_wf_invariant :
    (∀ t s c ci : Nat, (spice_amount t s c ci).Wf)
    ∧ SpiceAmountBuilder.new.spice_amount.Wf
    ∧ (∀ (b : SpiceAmountBuilder) (n : Nat), b.spice_amount.Wf → (b.turmeric n).spice_amount.Wf)
    ∧ (∀ (b : SpiceAmountBuilder) (n : Nat), b.spice_amount.Wf → (b.saffron n).spice_amount.Wf)
    ∧ (∀ (b : SpiceAmountBuilder) (n : Nat), b.spice_amount.Wf → (b.cardamon n).spice_amount.Wf)
    ∧ (∀ (b : SpiceAmountBuilder) (n : Nat), b.spice_amount.Wf → (b.cinnamon n).spice_amount.Wf)
    ∧ (∀ b : SpiceAmountBuilder, b.spice_amount.Wf → b.build.Wf)
    ∧ (∀ arr : Vec4, (SpiceAmount.from_spice_array arr).Wf)
    ∧ (∀ a b : SpiceAmount, (a.add b).Wf)
    ∧ (∀ a b c : SpiceAmount, a.subtract b = Except.ok c → c.Wf)
    ∧ (∀ a b o m : SpiceAmount,
        a.subtract b = Except.error (GameErrors.CannotSubtractSpiceAmount o m) → m.Wf)
    ∧ (∀ cv : Caravan, cv.get_spice_amount.Wf) := by
  refine ⟨fun t s c ci => rfl, rfl, ?_, ?_, ?_, ?_, fun b hw => hw, fun arr => rfl,
    fun a b => rfl, ?_, ?_, fun cv => rfl⟩
  · intro b n hw
    simp_all [SpiceAmountBuilder.turmeric, SpiceAmount.Wf, Vec4.mk.injEq]
  · intro b n hw
    simp_all [SpiceAmountBuilder.saffron, SpiceAmount.Wf, Vec4.mk.injEq]
  · intro b n hw
    simp_all [SpiceAmountBuilder.cardamon, SpiceAmount.Wf, Vec4.mk.injEq]
  · intro b n hw
    simp_all [SpiceAmountBuilder.cinnamon, SpiceAmount.Wf, Vec4.mk.injEq]
  · intro a b c h
    unfold SpiceAmount.subtract at h
    by_cases hcon : a.contains b
    · simp only [hcon, Bool.not_true, Bool.false_eq_true, if_false, Except.ok.injEq] at h
      subst h
      rfl
    · simp [hcon] at h
  · intro a b o m h
    unfold SpiceAmount.subtract at h
    by_cases hcon : a.contains b
    · simp [hcon] at h
    · simp only [hcon, Bool.not_false, if_true, Except.error.injEq,
        GameErrors.CannotSubtractSpiceAmount.injEq] at h
      rw [← h.2]
      rfl

/-- Witness for C9: a setter applied to the fresh builder, and the doc-test
subtraction's success value. -/
theorem claim_C9_wf_invariant_witness :
    ((SpiceAmountBuilder.new.turmeric 5).spice_amount).Wf ∧ (spice_amount 1 0 0 2).Wf :=
  ⟨claim_C9_wf_invariant.2.2.1 SpiceAmountBuilder.new 5 claim_C9_wf_invariant.2.1,
    claim_C9_wf_invariant.2.2.2.2.2.2.2.2.2.1 (spice_amount 2 1 4 3) (spice_amount 1 1 4 1)
      (spice_amount 1 0 0 2) rfl⟩

/-- C10: `Caravan.from_spice_amount` reads only the positional array: two
spice amounts with equal arrays produce identical results, named fields
notwithstanding. -/
theorem claim_C10_positional_only (u w : SpiceAmount) (h : u.vector = w.vector) :
    Caravan.from_spice_amount u = Caravan.from_spice_amount w := by
  unfold Caravan.from_spice_amount SpiceAmount.into_spice_array
  rw [h]

/-- Witness for C10: an inconsistent amount (named turmeric 5, array slot 1)
against the consistent amount (1,0,0,0). -/
theorem claim_C10_positional_only_witness :
    Caravan.from_spice_amount ⟨5, 0, 0, 0, ⟨1, 0, 0, 0⟩⟩ =
      Caravan.from_spice_amount (spice_amount 1 0 0 0) :=
  claim_C10_positional_only ⟨5, 0, 0, 0, ⟨1, 0, 0, 0⟩⟩ (spice_amount 1 0 0 0) rfl
